import Mathlib

/-!
Shallow embedding of the Mangetamain ETL pipeline and text-analysis engine
(`src/mangetamain/backend/data_processor.py`,
`src/mangetamain/backend/recipe_analyzer.py`,
`src/mangetamain/utils/helper.py`), together with theorems settling the
specification claims about cleaning, bucketing, joining, aggregation,
text normalization, memoization, fingerprints, persistence and error
handling.

Polars DataFrames are modelled as Lists of typed rows; numpy arrays as
Lists of rationals with explicit broadcast semantics; the spaCy pipeline
as an abstract tokenizer parameter (it is an external library; both
`_clean_text` and `_clean_texts_batch` invoke the very same pipeline);
matplotlib figures as opaque artifact records tagged with the data and
title they were rendered from (rendering itself is a presentation
concern outside the analysed core).
-/

namespace Mangetamain

/-- A row of the interactions table (`RAW_interactions.csv`):
user_id, recipe_id, rating, review (nullable), date elided. -/
structure InteractionRow where
  user_id : Nat
  recipe_id : Nat
  rating : Nat
  review : Option String
  deriving DecidableEq, Repr

/-- A row of the recipes table (`RAW_recipes.csv` after renaming `id` to
`recipe_id`): recipe_id, name, minutes, n_steps, ingredients (a string
encoding a Python list), submitted date elided. -/
structure RecipeRow where
  recipe_id : Nat
  name : String
  minutes : Int
  n_steps : Int
  ingredients : String
  deriving DecidableEq, Repr

/-- A row of an inner-joined table: one interaction paired with the
matching recipe (join on `recipe_id`). -/
structure JoinedRow where
  interaction : InteractionRow
  recipe : RecipeRow
  deriving DecidableEq, Repr

/-- Constant from data_processor.py line 24. -/
def RATING_MAX : Nat := 5
/-- Constant from data_processor.py line 25. -/
def NB_STEPS_MAX : Int := 40
/-- Constant from data_processor.py line 26. -/
def MEDIUM_LIM : Int := 100
/-- Constant from data_processor.py line 27: `60 * 48`. -/
def LONG_LIM : Int := 60 * 48

namespace DataProcessor

/-- Source `DataProcessor.drop_na`, interactions part (lines 121-123):
`df_interactions.filter(~df_interactions["review"].is_null())`. -/
def drop_na_interactions (rows : List InteractionRow) : List InteractionRow :=
  rows.filter (fun r => !r.review.isNone)

/-- Source `DataProcessor.drop_na`, recipes part (lines 127-136): first keep
rows with `minutes < 60*24*365 and minutes > 0`, then keep rows with
`n_steps > 0`. -/
def drop_na_recipes (rows : List RecipeRow) : List RecipeRow :=
  (rows.filter (fun r => r.minutes < 60 * 24 * 365 && r.minutes > 0)).filter
    (fun r => r.n_steps > 0)

/-- Source `DataProcessor.split_minutes`, short bucket (lines 149-151):
`minutes <= MEDIUM_LIM`. -/
def split_minutes_short (rows : List RecipeRow) : List RecipeRow :=
  rows.filter (fun r => r.minutes ≤ MEDIUM_LIM)

/-- Source `DataProcessor.split_minutes`, medium bucket (lines 152-155):
`minutes > MEDIUM_LIM and minutes <= LONG_LIM`. -/
def split_minutes_medium (rows : List RecipeRow) : List RecipeRow :=
  rows.filter (fun r => MEDIUM_LIM < r.minutes && r.minutes ≤ LONG_LIM)

/-- Source `DataProcessor.split_minutes`, long bucket (lines 156-158):
`minutes > LONG_LIM`. -/
def split_minutes_long (rows : List RecipeRow) : List RecipeRow :=
  rows.filter (fun r => LONG_LIM < r.minutes)

/-- Source `DataProcessor.merge_data` (lines 171-195): Polars inner join on
`recipe_id`; every interaction row is paired with every matching recipe
row, unmatched interactions are dropped. -/
def inner_join (ints : List InteractionRow) (recs : List RecipeRow) :
    List JoinedRow :=
  ints.flatMap fun i =>
    (recs.filter (fun r => r.recipe_id == i.recipe_id)).map fun r => ⟨i, r⟩

/-- Insertion (ascending) used to model `sorted(...)` on minute values. -/
def insertAsc (x : Int) : List Int → List Int
  | [] => [x]
  | y :: rest => if x ≤ y then x :: y :: rest else y :: insertAsc x rest

/-- Models `sorted(l)` on integer values. -/
def sortAsc (l : List Int) : List Int := l.foldr insertAsc []

/-- Distinct values of `l` (first occurrence kept; order irrelevant,
a sort follows). Models Polars `.unique()`. -/
def distinctVals (l : List Int) : List Int :=
  l.foldl (fun acc x => if acc.contains x then acc else acc ++ [x]) []

/-- Models `sorted(series.unique())`: the sorted distinct values. -/
def uniqueSorted (l : List Int) : List Int := sortAsc (distinctVals l)

/-- Models `series.value_counts().sort(key)["count"]`: the multiplicity of each
distinct value of `l`, listed in ascending order of the value. Only
values actually present in `l` appear (each with count ≥ 1). -/
def valueCountsSorted (l : List Int) : List Nat :=
  (uniqueSorted l).map fun v => l.count v

/-- Numpy element-wise division `a / b` of two 1-d integer arrays,
with numpy's broadcast semantics: equal lengths divide pointwise, a
length-1 operand broadcasts against the other, and any other shape
mismatch raises a `ValueError` (modelled as `none`). -/
def numpyDiv (a b : List Nat) : Option (List ℚ) :=
  if a.length = b.length then
    some (List.zipWith (fun x y => (x : ℚ) / (y : ℚ)) a b)
  else if a.length = 1 then
    some (b.map fun y => ((a.headD 0 : Nat) : ℚ) / (y : ℚ))
  else if b.length = 1 then
    some (a.map fun x => (x : ℚ) / ((b.headD 0 : Nat) : ℚ))
  else none

/-- Source `DataProcessor.compute_proportions`, minutes half (lines 211-224 and
252-257): the x-axis is `sorted(df_recipes_nna_short["minutes"].unique())`;
`comptes` counts `total_short` rows per minute value; `proportions`
counts `total_short` rows with `rating == RATING_MAX` per minute value
(only minute values that DO have a 5-star row appear); the quotient is
the positional numpy division `proportions / comptes`; finally the
DataFrame constructor pairs the x-axis with the quotient column, which
requires equal lengths (a Polars `ShapeError` otherwise, modelled as
`none`). -/
def compute_proportion_m (recipes_short : List RecipeRow)
    (total_short : List JoinedRow) : Option (List (Int × ℚ)) :=
  let minutes := uniqueSorted (recipes_short.map (·.minutes))
  let comptes := valueCountsSorted (total_short.map (·.recipe.minutes))
  let proportions := valueCountsSorted
    ((total_short.filter (fun r => r.interaction.rating == RATING_MAX)).map
      (·.recipe.minutes))
  match numpyDiv proportions comptes with
  | none => none
  | some q => if minutes.length = q.length then some (minutes.zip q) else none

/-- Source `DataProcessor.compute_proportions`, steps half (lines 228-249 and
258-260), same shape as the minutes half with the `n_steps <= 40`
restriction applied everywhere. -/
def compute_proportion_s (recipes_nna : List RecipeRow)
    (total : List JoinedRow) : Option (List (Int × ℚ)) :=
  let steps := uniqueSorted
    ((recipes_nna.filter (fun r => r.n_steps ≤ NB_STEPS_MAX)).map (·.n_steps))
  let comptes := valueCountsSorted
    ((total.filter (fun r => r.recipe.n_steps ≤ NB_STEPS_MAX)).map
      (·.recipe.n_steps))
  let proportions := valueCountsSorted
    ((total.filter (fun r =>
        r.recipe.n_steps ≤ NB_STEPS_MAX && r.interaction.rating == RATING_MAX)).map
      (·.recipe.n_steps))
  match numpyDiv proportions comptes with
  | none => none
  | some q => if steps.length = q.length then some (steps.zip q) else none

/-- The proportion the specification prescribes for a minutes group `g`
of a joined table: `count(rating == 5 in g) / count(rows in g)`. -/
def specProportionMinutes (rows : List JoinedRow) (g : Int) : ℚ :=
  ((rows.filter (fun r =>
      r.recipe.minutes == g && r.interaction.rating == RATING_MAX)).length : ℚ) /
    ((rows.filter (fun r => r.recipe.minutes == g)).length : ℚ)

end DataProcessor

/-! ### Concrete tables exercising `compute_proportions` (claim C1) -/

/-- Short-bucket recipe taking 10 minutes. -/
def C1_r10 : RecipeRow := ⟨1, "A", 10, 3, ""⟩
/-- Short-bucket recipe taking 20 minutes. -/
def C1_r20 : RecipeRow := ⟨2, "B", 20, 3, ""⟩
/-- Short-bucket recipe taking 30 minutes. -/
def C1_r30 : RecipeRow := ⟨3, "C", 30, 3, ""⟩
/-- Interaction giving recipe 1 a 4-star rating (recipe 1 never gets a
5-star rating). -/
def C1_i1 : InteractionRow := ⟨1, 1, 4, some "ok"⟩
/-- Second 4-star interaction for recipe 1. -/
def C1_i2 : InteractionRow := ⟨2, 1, 4, some "ok"⟩
/-- Interaction giving recipe 2 a 5-star rating. -/
def C1_i3 : InteractionRow := ⟨3, 2, 5, some "wow"⟩
/-- Interaction giving recipe 2 a 4-star rating. -/
def C1_i4 : InteractionRow := ⟨4, 2, 4, some "ok"⟩
/-- Interaction giving recipe 3 a 5-star rating. -/
def C1_i5 : InteractionRow := ⟨5, 3, 5, some "yum"⟩
/-- Interaction giving recipe 3 a 4-star rating. -/
def C1_i6 : InteractionRow := ⟨6, 3, 4, some "meh"⟩

/-- The `total_short` join for the two-recipe table. -/
def C1_total2 : List JoinedRow :=
  DataProcessor.inner_join [C1_i1, C1_i2, C1_i3, C1_i4] [C1_r10, C1_r20]

/-- The `total_short` join for the three-recipe table. -/
def C1_total3 : List JoinedRow :=
  DataProcessor.inner_join [C1_i1, C1_i2, C1_i3, C1_i4, C1_i5, C1_i6]
    [C1_r10, C1_r20, C1_r30]

namespace RecipeAnalyzer

/-- A spaCy token as observed by the filtering code of `_clean_text` /
`_clean_texts_batch`: its lemma (`token.lemma_`), surface text
(`token.text`), alphabetic flag (`token.is_alpha`) and part-of-speech
tag (`token.pos_`). The spaCy pipeline itself is an external library;
it is modelled as an abstract `String → List Token` function. Both the
single-text path (`self.nlp(text)`) and the batched path
(`self.nlp.pipe(texts)`) run the identical deterministic pipeline, so
both are modelled by the same function applied per document. -/
structure Token where
  lemma_ : String
  text : String
  is_alpha : Bool
  pos_ : String
  deriving DecidableEq, Repr

/-- Constant `MIN_TOKEN_LENGTH` defined (identically) at the top of
both `_clean_text` (line 155) and `_clean_texts_batch` (line 191). -/
def MIN_TOKEN_LENGTH : Nat := 2

/-- Models the falsiness of `text.strip()` in Python: stripping
whitespace leaves the empty string exactly when every character is
whitespace (in particular for the empty string). -/
def isBlank (s : String) : Bool := s.data.all Char.isWhitespace

/-- The token filter shared verbatim by `_clean_text` (lines 164-173)
and `_clean_texts_batch` (lines 202-211): keep alphabetic tokens whose
lemma is not a stop word, whose surface text is longer than
`MIN_TOKEN_LENGTH` characters, and which are not verbs. -/
def tokenKeep (stop_words : List String) (t : Token) : Bool :=
  t.is_alpha && !(stop_words.contains t.lemma_) &&
    t.text.length > MIN_TOKEN_LENGTH && !(t.pos_ == "VERB")

/-- Source `RecipeAnalyzer._clean_text` (lines 137-173): empty or
blank input yields `[]`; otherwise the lowercased text is run through
the pipeline and the kept tokens' lemmas are returned in order. (The
`isinstance(text, str)` guard is vacuous here: every value has type
String.) The `lru_cache` decorator memoizes a pure function and does
not change its value. -/
def clean_text (nlp : String → List Token) (stop_words : List String)
    (text : String) : List String :=
  if isBlank text then []
  else ((nlp text.toLower).filter (tokenKeep stop_words)).map (·.lemma_)

/-- Source `RecipeAnalyzer._clean_texts_batch` (lines 175-214):
drop blank entries, lowercase the survivors, run them all through the
pipeline (`nlp.pipe`, one document at a time in order), filter each
document's tokens with the same criteria as `_clean_text`, and
concatenate (`all_tokens.extend(tokens)`). -/
def clean_texts_batch (nlp : String → List Token) (stop_words : List String)
    (texts : List String) : List String :=
  let valid_texts := (texts.filter (fun t => !(isBlank t))).map (·.toLower)
  if valid_texts.isEmpty then []
  else valid_texts.flatMap fun d =>
    ((nlp d).filter (tokenKeep stop_words)).map (·.lemma_)

/-- The fixed excluded set of `_compute_top_ingredients` (lines 230-252). -/
def excluded : List String :=
  ["salt", "water", "oil", "sugar", "pepper", "butter", "flour",
   "olive oil", "vegetable oil", "all-purpose flour", "cup", "tablespoon",
   "salt and pepper", "teaspoon", "pound", "ounce", "gram", "kilogram",
   "milliliter", "liter", "black pepper"]

/-- Constant `MIN_LEN` of `_compute_top_ingredients` (line 253). -/
def MIN_LEN : Nat := 2

/-- The single-quote character (ASCII 39). -/
def singleQuote : Char := Char.ofNat 39

/-- Models `str.replace_all(r"[\[\]']", "")` (line 262): delete every
square bracket and single quote from the string. -/
def stripBracketsQuotes (s : String) : String :=
  String.mk (s.data.filter fun c =>
    !(c == '[') && !(c == ']') && !(c == singleQuote))

/-- Models `str.split(", ")` (line 266), specialized to the literal
two-character separator the source uses: split a character list at
every comma-followed-by-blank pair. -/
def splitCommaSpace : List Char → List (List Char)
  | [] => [[]]
  | [c] => [[c]]
  | c₁ :: c₂ :: rest =>
    if c₁ == ',' && c₂ == ' ' then
      [] :: splitCommaSpace rest
    else
      match splitCommaSpace (c₂ :: rest) with
      | [] => [[c₁]]
      | g :: gs => (c₁ :: g) :: gs

/-- String-level wrapper of `splitCommaSpace`. -/
def splitEntries (s : String) : List String :=
  (splitCommaSpace s.data).map String.mk

/-- One step of occurrence counting: bump the count of key `k`,
appending a fresh `(k, 1)` entry if `k` is new. -/
def bump (k : String) : List (String × Nat) → List (String × Nat)
  | [] => [(k, 1)]
  | (a, n) :: rest =>
    if a == k then (a, n + 1) :: rest else (a, n) :: bump k rest

/-- Models `group_by(col).agg(pl.len())`: occurrence counts of each
distinct value, first-seen order (Polars does not guarantee a group
order; a deterministic one is fixed here and the ranking below sorts
by count anyway). -/
def tally (l : List String) : List (String × Nat) :=
  l.foldl (fun acc k => bump k acc) []

/-- Insertion step of a stable descending sort on the count column. -/
def insertByCountDesc (p : String × Nat) :
    List (String × Nat) → List (String × Nat)
  | [] => [p]
  | q :: rest =>
    if q.2 < p.2 then p :: q :: rest else q :: insertByCountDesc p rest

/-- Models `.sort("count", descending=True)`. -/
def sortByCountDesc (l : List (String × Nat)) : List (String × Nat) :=
  l.foldr insertByCountDesc []

/-- Source `RecipeAnalyzer._compute_top_ingredients` (lines 216-293),
with the inflect engine's `singular_noun` (external library; returns
`False`, modelled `none`, when its input is already singular) passed as
a parameter. Pipeline exactly as in the source: strip brackets/quotes,
split on `", "`, explode; filter out excluded, empty and short entries;
THEN `with_columns` adds an `ingredients_singular` column holding the
lowercased singular form next to the raw `ingredients` column; finally
`group_by("ingredients")` — the RAW column — counts and sorts
descending. The pairs list carries both columns of the intermediate
frame. -/
def compute_top_ingredients (singular_noun : String → Option String)
    (recipes : List RecipeRow) : List (String × Nat) :=
  let entries := recipes.flatMap fun r =>
    splitEntries (stripBracketsQuotes r.ingredients)
  let kept := entries.filter fun x =>
    !(excluded.contains x) && !(x == "") && x.length > MIN_LEN
  let pairs := kept.map fun x =>
    (x, match singular_noun x.toLower with | some y => y | none => x.toLower)
  sortByCountDesc (tally (pairs.map (·.1)))

/-- A cached artifact: either a preprocessed token list (the
`preprocessed_500_*` entries and review lists) or a matplotlib figure.
A figure is opaque to the analysed core (rendering is excluded from the
spec's scope); it is modelled by the identity of the underlying
matplotlib object (a fresh id allocated at creation time) together
with the token data and title it was rendered from. -/
inductive Artifact where
  | tokens (ts : List String)
  | fig (id : Nat) (data : List String) (title : String)
  deriving DecidableEq, Repr

/-- The `_cache` dictionary: an association list from string keys to
artifacts (first binding wins; the analysed flows only ever store a key
that is absent, so bindings are never shadowed). -/
abbrev Cache := List (String × Artifact)

/-- Dictionary lookup `self._cache[k]`, `none` modelling a `KeyError`. -/
def cacheFind (c : Cache) (k : String) : Option Artifact :=
  match c with
  | [] => none
  | (a, v) :: rest => if a == k then some v else cacheFind rest k

/-- Dictionary store `self._cache[k] = v` (always called on absent keys
in the modelled flows). -/
def cacheStore (c : Cache) (k : String) (v : Artifact) : Cache :=
  c ++ [(k, v)]

/-- Cache key populated by `_preprocessed_500_best_reviews` (line 339). -/
def bestKey : String := "preprocessed_500_best_reviews"
/-- Cache key populated by `_preprocessed_500_worst_reviews` (line 361). -/
def worstKey : String := "preprocessed_500_worst_reviews"
/-- Cache key populated by `_preprocessed_500_most_reviews` (line 306). -/
def mostKey : String := "preprocessed_500_most_reviews"

/-- Source `RecipeAnalyzer.switch_filter` (lines 376-402): pick the
preprocessed cache key for the given filter, defaulting to the best
reviews for any other string; every branch immediately subscripts
`self._cache[cache_key]` (modelled: `none` when that raises), then the
key is returned. -/
def filter_cache_key (rating_filter : String) : String :=
  if rating_filter == "best" then bestKey
  else if rating_filter == "worst" then worstKey
  else if rating_filter == "most" then mostKey
  else bestKey

/-- The lookup-and-return part of `switch_filter`: every branch
subscripts `self._cache[cache_key]` (modelled: `none` when that would
raise a `KeyError`) before the key is returned. -/
def switch_filter (cache : Cache) (rating_filter : String) : Option String :=
  match cacheFind cache (filter_cache_key rating_filter) with
  | some _ => some (filter_cache_key rating_filter)
  | none => none

/-- The mutable state of a `RecipeAnalyzer` instance: the three stored
tables, the stop-word set, the precomputed ingredient ranking, the
`_cache` dictionary, and the spaCy model (`none` once excluded by
`__getstate__`; otherwise the name of the loaded model). `nextFigId`
is a ghost counter giving each newly created matplotlib figure a fresh
identity. -/
structure AnalyzerState where
  df_recipe : List RecipeRow
  df_interaction : List InteractionRow
  df_total : List JoinedRow
  stop_words : List String
  top_ingredients : List (String × Nat)
  cache : Cache
  nextFigId : Nat
  nlp : Option String
  deriving DecidableEq, Repr

/-- The cache key `f"word_cloud_{rating_filter!s}_{wordcloud_nbr_word}"`
built by `plot_word_cloud` (line 465). -/
def word_cloud_key (rating_filter : String) (wordcloud_nbr_word : Nat) :
    String :=
  "word_cloud_" ++ rating_filter ++ "_" ++ Nat.repr wordcloud_nbr_word

/-- The cache key `f"tfidf_{rating_filter!s}_{wordcloud_nbr_word}"`
built by `plot_tfidf` (line 520). -/
def tfidf_key (rating_filter : String) (wordcloud_nbr_word : Nat) : String :=
  "tfidf_" ++ rating_filter ++ "_" ++ Nat.repr wordcloud_nbr_word

/-- Source `RecipeAnalyzer.plot_word_cloud` (lines 445-494): fetch the
preprocessed tokens through `switch_filter` (this subscripting happens
before the cached-key check and can raise); if the key is not cached,
render a figure — a placeholder when the token list is empty, the word
cloud otherwise — store it under the key, and return the cached entry. -/
def plot_word_cloud (s : AnalyzerState) (wordcloud_nbr_word : Nat)
    (rating_filter : String) (title : String) :
    Option (Artifact × AnalyzerState) :=
  let cache_key := word_cloud_key rating_filter wordcloud_nbr_word
  match switch_filter s.cache rating_filter with
  | none => none
  | some pk =>
    match cacheFind s.cache pk with
    | none => none
    | some (Artifact.fig _ _ _) => none
    | some (Artifact.tokens texts) =>
      match cacheFind s.cache cache_key with
      | some a => some (a, s)
      | none =>
        if texts.isEmpty then
          let f := Artifact.fig s.nextFigId [] title
          some (f, { s with cache := cacheStore s.cache cache_key f,
                            nextFigId := s.nextFigId + 1 })
        else
          let f := Artifact.fig s.nextFigId texts title
          some (f, { s with cache := cacheStore s.cache cache_key f,
                            nextFigId := s.nextFigId + 1 })

/-- Source `RecipeAnalyzer.plot_tfidf` (lines 496-565): identical
caching discipline with key `tfidf_{rating_filter}_{wordcloud_nbr_word}`;
the compute branch groups the tokens into ~100 synthetic documents
(`doc_size = max(1, len(texts) // 100)`, chunks joined by spaces) and
renders a figure from them. -/
def plot_tfidf (s : AnalyzerState) (wordcloud_nbr_word : Nat)
    (rating_filter : String) (title : String) :
    Option (Artifact × AnalyzerState) :=
  let cache_key := tfidf_key rating_filter wordcloud_nbr_word
  match switch_filter s.cache rating_filter with
  | none => none
  | some pk =>
    match cacheFind s.cache pk with
    | none => none
    | some (Artifact.fig _ _ _) => none
    | some (Artifact.tokens texts) =>
      match cacheFind s.cache cache_key with
      | some a => some (a, s)
      | none =>
        if texts.isEmpty then
          let f := Artifact.fig s.nextFigId [] title
          some (f, { s with cache := cacheStore s.cache cache_key f,
                            nextFigId := s.nextFigId + 1 })
        else
          let doc_size := max 1 (texts.length / 100)
          let docs := (texts.toChunks doc_size).map (String.intercalate " ")
          let f := Artifact.fig s.nextFigId docs title
          some (f, { s with cache := cacheStore s.cache cache_key f,
                            nextFigId := s.nextFigId + 1 })

/-- The cache key built by `compare_frequency_and_tfidf` (line 590):
`compare_{recipe_count}_{wordcloud_nbr_word}_{title}` — note that
`rating_filter` is NOT part of the key. -/
def compare_fingerprint (recipe_count wordcloud_nbr_word : Nat)
    (title : String) : String :=
  "compare_" ++ Nat.repr recipe_count ++ "_" ++
    Nat.repr wordcloud_nbr_word ++ "_" ++ title

/-- Source `RecipeAnalyzer.compare_frequency_and_tfidf` (lines
567-638): here the cached-key check comes first; only on a miss are the
preprocessed tokens fetched (via `switch_filter`) and a comparison
figure computed and stored. -/
def compare_frequency_and_tfidf (s : AnalyzerState)
    (recipe_count wordcloud_nbr_word : Nat) (rating_filter : String)
    (title : String) : Option (Artifact × AnalyzerState) :=
  let cache_key := compare_fingerprint recipe_count wordcloud_nbr_word title
  match cacheFind s.cache cache_key with
  | some a => some (a, s)
  | none =>
    match switch_filter s.cache rating_filter with
    | none => none
    | some pk =>
      match cacheFind s.cache pk with
      | none => none
      | some (Artifact.fig _ _ _) => none
      | some (Artifact.tokens cleaned) =>
        if cleaned.isEmpty then
          let f := Artifact.fig s.nextFigId [] title
          some (f, { s with cache := cacheStore s.cache cache_key f,
                            nextFigId := s.nextFigId + 1 })
        else
          let f := Artifact.fig s.nextFigId cleaned title
          some (f, { s with cache := cacheStore s.cache cache_key f,
                            nextFigId := s.nextFigId + 1 })

/-- Name of the linguistic model loaded by `__init__` and
`__setstate__`: `spacy.load("en_core_web_sm", disable=["parser","ner"])`. -/
def spacyModel : String := "en_core_web_sm"

/-- Source `RecipeAnalyzer.__getstate__` (lines 813-824): copy the
instance dictionary and blank out the spaCy model. -/
def getstate (s : AnalyzerState) : AnalyzerState := { s with nlp := none }

/-- Source `RecipeAnalyzer.__setstate__` (lines 826-835): restore the
dictionary and reload the spaCy model. -/
def setstate (st : AnalyzerState) : AnalyzerState :=
  { st with nlp := some spacyModel }

/-- Source `RecipeAnalyzer.save` (lines 837-848): `pickle.dump(self)`
serializes exactly the `__getstate__` dictionary by value. -/
def save (s : AnalyzerState) : AnalyzerState := getstate s

/-- Source `RecipeAnalyzer.load` (lines 850-863): `pickle.load`
rebuilds the object by value and runs `__setstate__`. -/
def load (blob : AnalyzerState) : AnalyzerState := setstate blob

end RecipeAnalyzer

namespace Helper

/-- The eight DataFrames read by `_load_all_dataframes`
(`utils/helper.py` lines 60-103), in order. -/
structure Tables where
  df_interactions : List InteractionRow
  df_interactions_nna : List InteractionRow
  df_recipes : List RecipeRow
  df_recipes_nna : List RecipeRow
  df_total_nt : List JoinedRow
  df_total : List JoinedRow
  df_total_court : List JoinedRow
  df_user : List (Nat × ℚ)
  deriving DecidableEq

/-- The empty DataFrames constructed in the error branch of
`load_data_from_parquet_and_pickle` (lines 186-195). -/
def emptyTables : Tables := ⟨[], [], [], [], [], [], [], []⟩

/-- The 12-tuple returned by `load_data_from_parquet_and_pickle`
(lines 198-211): the eight tables, the two proportion series, the
optional analyzer and the `data_loaded` flag. -/
structure LoadResult where
  tables : Tables
  proportion_m : List ℚ
  proportion_s : List ℚ
  recipe_analyzer : Option RecipeAnalyzer.AnalyzerState
  data_loaded : Bool
  deriving DecidableEq

/-- Source `_load_recipe_analyzer` (`utils/helper.py` lines 114-128):
try to unpickle the analyzer; on ANY exception fall back to `None`.
The outcome of the `RecipeAnalyzer.load` call is passed in as an
`Except` value: `ok` for a successful unpickle, `error` for whatever
exception deserialization raised. -/
def load_recipe_analyzer
    (r : Except String RecipeAnalyzer.AnalyzerState) :
    Option RecipeAnalyzer.AnalyzerState :=
  match r with
  | .ok a => some a
  | .error _ => none

/-- Source `load_data_from_parquet_and_pickle` (`utils/helper.py` lines
131-211): load the tables and the proportion series (any exception from
those loads is caught and yields empty data with `data_loaded = False`),
then load the analyzer through `_load_recipe_analyzer`, which never
raises, and report `data_loaded = True`. -/
def load_data_from_parquet_and_pickle
    (dfs : Except String Tables)
    (props : Except String (List ℚ × List ℚ))
    (analyzer : Except String RecipeAnalyzer.AnalyzerState) : LoadResult :=
  match dfs, props with
  | .ok t, .ok p => ⟨t, p.1, p.2, load_recipe_analyzer analyzer, true⟩
  | .error _, _ => ⟨emptyTables, [], [], none, false⟩
  | _, .error _ => ⟨emptyTables, [], [], none, false⟩

end Helper

/-! ### Concrete instances used by counterexamples and witnesses -/

/-- An interaction whose review is a blank (whitespace-only) string:
not null, but without any review text. -/
def C5_blank_interaction : InteractionRow := ⟨2, 102, 1, some " "⟩

/-- An interaction with an ordinary review text. -/
def C5_good_interaction : InteractionRow := ⟨1, 101, 5, some "Great"⟩

namespace RecipeAnalyzer

/-- Analyzer state as left by construction, reduced to essentials: the
three preprocessed token lists are in the cache and the model is
loaded. Used by the C2 witness. -/
def C2_s0 : AnalyzerState :=
  ⟨[], [], [], [], [],
   [(bestKey, .tokens ["apple", "pear"]), (worstKey, .tokens ["awful"]),
    (mostKey, .tokens ["popular"])], 0, some spacyModel⟩

/-- The figure computed by the first `plot_word_cloud`/`plot_tfidf`
call on `C2_s0` with arguments `(3, "best", "T")`. -/
def C2_fig : Artifact := .fig 0 ["apple", "pear"] "T"

/-- State after the first `plot_word_cloud C2_s0 3 "best" "T"` call. -/
def C2_s1 : AnalyzerState :=
  { C2_s0 with cache := C2_s0.cache ++ [("word_cloud_best_3", C2_fig)],
               nextFigId := 1 }

/-- State after the first `plot_tfidf C2_s0 3 "best" "T"` call. -/
def C2_s1t : AnalyzerState :=
  { C2_s0 with cache := C2_s0.cache ++ [("tfidf_best_3", C2_fig)],
               nextFigId := 1 }

/-- Recipe whose ingredient text is exactly the Scenario C string of
the specification (no blanks after the commas). -/
def C6_recipe_nospace : RecipeRow := ⟨1, "X", 10, 1, "['salt','Onions','Tomato']"⟩

/-- Recipe with the same ingredients in the Food.com on-disk format
(a blank after each comma, so the `", "` split applies). -/
def C6_recipe_spaced : RecipeRow :=
  ⟨1, "X", 10, 1, "['salt', 'Onions', 'Tomato']"⟩

/-- Analyzer state used by the C7 evaluation: preprocessed best and
worst token lists differ, nothing else cached. -/
def C7_s0 : AnalyzerState :=
  ⟨[], [], [], [], [],
   [(bestKey, .tokens ["apple", "pear"]), (worstKey, .tokens ["awful"]),
    (mostKey, .tokens ["popular"])], 0, some spacyModel⟩

/-- The comparison figure computed from the BEST-reviews tokens. -/
def C7_fig : Artifact := .fig 0 ["apple", "pear"] "T"

/-- State after `compare_frequency_and_tfidf C7_s0 100 100 "best" "T"`. -/
def C7_s1 : AnalyzerState :=
  { C7_s0 with cache := C7_s0.cache ++ [("compare_100_100_T", C7_fig)],
               nextFigId := 1 }

/-- Analyzer instance used by the C8 witness: a constructed analyzer
(model loaded) with nonempty tables, index and cache. -/
def C8_analyzer : AnalyzerState :=
  ⟨[⟨1, "A", 10, 3, "['tomato', 'onion']"⟩], [⟨1, 1, 5, some "good"⟩],
   [⟨⟨1, 1, 5, some "good"⟩, ⟨1, "A", 10, 3, "['tomato', 'onion']"⟩⟩],
   ["the"], [("tomato", 2)], [(bestKey, .tokens ["apple"])], 1,
   some spacyModel⟩

/-- Cache used by the C10 witness: the three preprocessed keys are
present, as construction guarantees. -/
def C10_cache : Cache :=
  [(bestKey, .tokens ["apple"]), (worstKey, .tokens ["awful"]),
   (mostKey, .tokens ["popular"])]

end RecipeAnalyzer

/-! ## Theorems settling the claims -/

open DataProcessor RecipeAnalyzer Helper

/-- Claim C1. The claim asserts that `compute_proportions` computes
`count(rating==5 in g)/count(rows in g)` for every group via a
zero-filled lookup over the full group domain, so that no group causes
a division error or a misaligned quotient. The code instead divides two
positionally aligned `value_counts` arrays, and the 5-star array omits
every group with no 5-star row. On the two-recipe table (minutes group
10 has ratings {4,4}, group 20 has {5,4}) the numpy broadcast pairs the
single 5-star count with BOTH totals: group 10 is reported as 1/2
although its true 5-star proportion is 0. On the three-recipe table
(groups 10:{4,4}, 20:{5,4}, 30:{5,4}) the arrays have lengths 2 and 3
and the division raises a `ValueError` (modelled `none`). -/
theorem C1_positional_division_misaligns :
    compute_proportion_m [C1_r10, C1_r20] C1_total2 =
      some [(10, 1/2), (20, 1/2)] ∧
    specProportionMinutes C1_total2 10 = 0 ∧
    specProportionMinutes C1_total2 20 = 1/2 ∧
    ((1 : ℚ)/2) ≠ 0 ∧
    compute_proportion_m [C1_r10, C1_r20, C1_r30] C1_total3 = none := by
  refine ⟨rfl, ?_, rfl, by norm_num, rfl⟩
  norm_num [specProportionMinutes, C1_total2, inner_join, C1_i1, C1_i2,
    C1_i3, C1_i4, C1_r10, C1_r20, RATING_MAX]

/-- Claim C5, counterexample. The claim says an interaction whose
review is a blank string is dropped by `drop_na`; in fact `drop_na`
only filters `is_null()`, so the blank-review row survives. -/
theorem C5_blank_review_survives :
    drop_na_interactions [C5_good_interaction, C5_blank_interaction] =
      [C5_good_interaction, C5_blank_interaction] ∧
    C5_blank_interaction.review = some " " ∧
    RecipeAnalyzer.isBlank " " = true := by
  refine ⟨rfl, rfl, by decide⟩

/-- Claim C5, amended. An interaction row survives `drop_na` if and
only if its review is not null (blank but non-null reviews are kept);
a recipe row survives if and only if `0 < minutes < 525600` and
`n_steps > 0`. -/
theorem C5_cleaner_keeps_exactly_valid_rows (ints : List InteractionRow)
    (recs : List RecipeRow) (i : InteractionRow) (r : RecipeRow) :
    (i ∈ drop_na_interactions ints ↔ i ∈ ints ∧ i.review ≠ none) ∧
    (r ∈ drop_na_recipes recs ↔
      r ∈ recs ∧ 0 < r.minutes ∧ r.minutes < 525600 ∧ 0 < r.n_steps) := by
  constructor
  · simp [drop_na_interactions, List.mem_filter, Option.isNone_iff_eq_none,
      Option.isSome_iff_ne_none]
  · simp only [drop_na_recipes, List.mem_filter, Bool.and_eq_true,
      decide_eq_true_eq]
    constructor
    · rintro ⟨⟨hm, hs⟩, hn⟩
      exact ⟨hm, hs.2, by linarith [hs.1], hn⟩
    · rintro ⟨hm, h1, h2, h3⟩
      exact ⟨⟨hm, by linarith, h1⟩, h3⟩

/-- Claim C3. Batch normalization concatenates the single-text
normalizations: `_clean_texts_batch` applies the identical filtering as
`_clean_text` and preserves document order, for every pipeline,
stop-word set and pair of texts. -/
theorem C3_batch_is_concat_of_singles (nlp : String → List Token)
    (stop_words : List String) (a b : String) :
    clean_texts_batch nlp stop_words [a, b] =
      clean_text nlp stop_words a ++ clean_text nlp stop_words b := by
  cases ha : isBlank a <;> cases hb : isBlank b <;>
    simp [clean_texts_batch, clean_text, ha, hb, List.filter_cons]

/-- Helper for claim C4: the three bucket filters are a permutation of
the input table (stated with right-associated appends). -/
theorem split_minutes_perm (l : List RecipeRow) :
    (split_minutes_short l ++
      (split_minutes_medium l ++ split_minutes_long l)).Perm l := by
  induction l with
  | nil =>
    simp [split_minutes_short, split_minutes_medium, split_minutes_long]
  | cons a t ih =>
    by_cases h1 : a.minutes ≤ MEDIUM_LIM
    · have h2 : ¬ MEDIUM_LIM < a.minutes := not_lt.mpr h1
      have h3 : ¬ LONG_LIM < a.minutes := not_lt.mpr (h1.trans (by decide))
      simpa [split_minutes_short, split_minutes_medium, split_minutes_long,
        List.filter_cons, h1, h2, h3] using ih.cons a
    · have h2 : MEDIUM_LIM < a.minutes := not_le.mp h1
      by_cases h3 : a.minutes ≤ LONG_LIM
      · have h4 : ¬ LONG_LIM < a.minutes := not_lt.mpr h3
        simpa [split_minutes_short, split_minutes_medium,
          split_minutes_long, List.filter_cons, h1, h2, h3, h4] using
          List.perm_middle.trans (ih.cons a)
      · have h4 : LONG_LIM < a.minutes := not_le.mp h3
        simpa [split_minutes_short, split_minutes_medium,
          split_minutes_long, List.filter_cons, h1, h2, h3, h4] using
          ((List.Perm.append_left (split_minutes_short t)
            List.perm_middle).trans List.perm_middle).trans (ih.cons a)

/-- Claim C4. The three duration buckets of `split_minutes` partition
the cleaned recipe table exactly: membership in each bucket is
membership in the table plus the bucket's minute range, the buckets are
pairwise disjoint, and their union (as a multiset) equals the table. -/
theorem C4_split_minutes_partitions (l : List RecipeRow) :
    (split_minutes_short l ++ split_minutes_medium l ++
      split_minutes_long l).Perm l ∧
    (∀ r, (r ∈ split_minutes_short l ↔ r ∈ l ∧ r.minutes ≤ MEDIUM_LIM) ∧
      (r ∈ split_minutes_medium l ↔
        r ∈ l ∧ MEDIUM_LIM < r.minutes ∧ r.minutes ≤ LONG_LIM) ∧
      (r ∈ split_minutes_long l ↔ r ∈ l ∧ LONG_LIM < r.minutes)) ∧
    (∀ r, ¬(r ∈ split_minutes_short l ∧ r ∈ split_minutes_medium l) ∧
      ¬(r ∈ split_minutes_short l ∧ r ∈ split_minutes_long l) ∧
      ¬(r ∈ split_minutes_medium l ∧ r ∈ split_minutes_long l)) := by
  refine ⟨by simpa [List.append_assoc] using split_minutes_perm l, ?_, ?_⟩
  · intro r
    simp [split_minutes_short, split_minutes_medium, split_minutes_long,
      List.mem_filter, and_assoc]
  · intro r
    simp only [split_minutes_short, split_minutes_medium,
      split_minutes_long, List.mem_filter, Bool.and_eq_true,
      decide_eq_true_eq, MEDIUM_LIM, LONG_LIM]
    refine ⟨?_, ?_, ?_⟩
    · rintro ⟨⟨-, h1⟩, -, h2, -⟩; omega
    · rintro ⟨⟨-, h1⟩, -, h2⟩; omega
    · rintro ⟨⟨-, -, h1⟩, -, h2⟩; omega

/-- Helper: projecting the first component back out of a pairing map
recovers the original list. -/
theorem map_fst_pair {α β : Type} (h : α → β) (l : List α) :
    (List.map (fun x => (x, h x)) l).map (·.1) = l := by
  induction l with
  | nil => rfl
  | cons x xs ih => simp [ih]

/-- Helper for claim C6: `_compute_top_ingredients` groups by the raw
`ingredients` column, so its output does not depend on the
singularization function at all — the `ingredients_singular` column it
builds is dead. -/
theorem compute_top_ingredients_ignores_singular
    (f g : String → Option String) (recipes : List RecipeRow) :
    compute_top_ingredients f recipes = compute_top_ingredients g recipes := by
  simp only [compute_top_ingredients, map_fst_pair]

/-- Claim C6. The claim says the ingredient counts are grouped over the
lowercased, singularized form of each entry. In fact the `group_by`
uses the raw `ingredients` column: the output is entirely independent
of the singularization function; on the Food.com-format text
`"['salt', 'Onions', 'Tomato']"` the index contains the RAW entries
`"Tomato"` and `"Onions"` (not `"tomato"`/`"onion"`); and on the exact
Scenario C text `"['salt','Onions','Tomato']"` (no blank after the
commas) the `", "` split does not even fire, leaving the single
un-normalized entry `"salt,Onions,Tomato"` — `salt` not excluded. -/
theorem C6_index_groups_raw_not_normalized :
    (∀ f g recipes,
      compute_top_ingredients f recipes = compute_top_ingredients g recipes) ∧
    (∀ f, compute_top_ingredients f [C6_recipe_spaced] =
      [("Tomato", 1), ("Onions", 1)]) ∧
    (∀ f, compute_top_ingredients f [C6_recipe_nospace] =
      [("salt,Onions,Tomato", 1)]) := by
  refine ⟨compute_top_ingredients_ignores_singular, fun f => ?_, fun f => ?_⟩
  · rw [compute_top_ingredients_ignores_singular f (fun _ => none)]
    decide
  · rw [compute_top_ingredients_ignores_singular f (fun _ => none)]
    decide

/-- Claim C8. Persistence round-trip: `__getstate__` removes exactly
the spaCy model from the pickled state (all tables, the ingredient
index and the cache are kept by value), and `load(save(x))` restores
the analyzer exactly whenever its model is the standard one that
`__init__`/`__setstate__` load. -/
theorem C8_roundtrip (a : AnalyzerState) :
    (save a).nlp = none ∧
    save a = { a with nlp := none } ∧
    load (save a) = { a with nlp := some spacyModel } ∧
    (a.nlp = some spacyModel → load (save a) = a) := by
  refine ⟨rfl, rfl, rfl, fun h => ?_⟩
  cases a
  simp only [RecipeAnalyzer.load, save, getstate, setstate] at *
  rw [← h]

/-- Claim C8, witness: round-trip on a concrete constructed analyzer. -/
theorem C8_roundtrip_witness :
    load (save C8_analyzer) = C8_analyzer :=
  (C8_roundtrip C8_analyzer).2.2.2 rfl

/-- Helper: a binding found in a cache is still found after appending
further entries (first binding wins and appends go to the back). -/
theorem cacheFind_append_of_some {c : Cache} {k : String} {v : Artifact}
    (d : Cache) (h : cacheFind c k = some v) : cacheFind (c ++ d) k = some v := by
  induction c with
  | nil => simp [cacheFind] at h
  | cons p rest ih =>
    obtain ⟨a, w⟩ := p
    by_cases hk : (a == k) = true
    · simp [cacheFind, hk] at h ⊢
      exact h
    · simp only [Bool.not_eq_true] at hk
      simp [cacheFind, hk] at h ⊢
      exact ih h

/-- Helper: storing a previously absent key makes it found. -/
theorem cacheFind_append_self {c : Cache} {k : String}
    (h : cacheFind c k = none) (v : Artifact) :
    cacheFind (c ++ [(k, v)]) k = some v := by
  induction c with
  | nil => simp [cacheFind]
  | cons p rest ih =>
    obtain ⟨a, w⟩ := p
    by_cases hk : (a == k) = true
    · simp [cacheFind, hk] at h
    · simp only [Bool.not_eq_true] at hk
      simp [cacheFind, hk] at h ⊢
      exact ih h

/-- Helper: `switch_filter` still succeeds with the same key after the
cache grows. -/
theorem switch_filter_append {cache : Cache} {f pk : String} (d : Cache)
    (h : switch_filter cache f = some pk) :
    switch_filter (cache ++ d) f = some pk := by
  unfold switch_filter at h ⊢
  cases hf : cacheFind cache (filter_cache_key f) with
  | none => rw [hf] at h; cases h
  | some w =>
    rw [hf] at h
    rw [cacheFind_append_of_some d hf]
    exact h

/-- Helper: the preprocessed-tokens binding that `switch_filter`
returned is still the first binding for that key after the cache grows. -/
theorem switch_filter_found {cache : Cache} {f pk : String}
    (h : switch_filter cache f = some pk) :
    ∃ w, cacheFind cache pk = some w := by
  unfold switch_filter at h
  cases hf : cacheFind cache (filter_cache_key f) with
  | none => rw [hf] at h; cases h
  | some w =>
    rw [hf] at h
    cases h
    exact ⟨w, hf⟩

/-- Claim C2. Memoization of the artifact operations: if a
`plot_word_cloud` (resp. `plot_tfidf`) call returns artifact `a` in
state `s'`, then `a` is stored in `s'` under the call's cache key, and
repeating the identical call on `s'` returns the very same artifact
`a` and leaves the state unchanged — the compute body runs at most
once per fingerprint, later identical calls return the memoized object
by reference. -/
theorem C2_artifact_ops_memoized (s : AnalyzerState) (n : Nat)
    (f t : String) (a : Artifact) (s' : AnalyzerState) :
    (plot_word_cloud s n f t = some (a, s') →
      cacheFind s'.cache (word_cloud_key f n) = some a ∧
      plot_word_cloud s' n f t = some (a, s')) ∧
    (plot_tfidf s n f t = some (a, s') →
      cacheFind s'.cache (tfidf_key f n) = some a ∧
      plot_tfidf s' n f t = some (a, s')) := by
  constructor
  · intro h
    simp only [plot_word_cloud] at h ⊢
    split at h
    next hsf => simp at h
    next pk hsf =>
      split at h
      next hpk => simp at h
      next i d tl hpk => simp at h
      next texts hpk =>
        split at h
        next a0 hck =>
          rw [Option.some.injEq, Prod.mk.injEq] at h
          obtain ⟨rfl, rfl⟩ := h
          exact ⟨hck, by simp [hsf, hpk, hck]⟩
        next hck =>
          split at h
          next he =>
            rw [Option.some.injEq, Prod.mk.injEq] at h
            obtain ⟨rfl, rfl⟩ := h
            have hsf' := switch_filter_append
              [(word_cloud_key f n, Artifact.fig s.nextFigId [] t)] hsf
            have hpk' := cacheFind_append_of_some
              [(word_cloud_key f n, Artifact.fig s.nextFigId [] t)] hpk
            have hfound := cacheFind_append_self hck
              (Artifact.fig s.nextFigId [] t)
            refine ⟨by simpa [cacheStore] using hfound, ?_⟩
            simp [cacheStore, hsf', hpk', hfound]
          next he =>
            rw [Option.some.injEq, Prod.mk.injEq] at h
            obtain ⟨rfl, rfl⟩ := h
            have hsf' := switch_filter_append
              [(word_cloud_key f n, Artifact.fig s.nextFigId texts t)] hsf
            have hpk' := cacheFind_append_of_some
              [(word_cloud_key f n, Artifact.fig s.nextFigId texts t)] hpk
            have hfound := cacheFind_append_self hck
              (Artifact.fig s.nextFigId texts t)
            refine ⟨by simpa [cacheStore] using hfound, ?_⟩
            simp [cacheStore, hsf', hpk', hfound]
  · intro h
    simp only [plot_tfidf] at h ⊢
    split at h
    next hsf => simp at h
    next pk hsf =>
      split at h
      next hpk => simp at h
      next i d tl hpk => simp at h
      next texts hpk =>
        split at h
        next a0 hck =>
          rw [Option.some.injEq, Prod.mk.injEq] at h
          obtain ⟨rfl, rfl⟩ := h
          exact ⟨hck, by simp [hsf, hpk, hck]⟩
        next hck =>
          split at h
          next he =>
            rw [Option.some.injEq, Prod.mk.injEq] at h
            obtain ⟨rfl, rfl⟩ := h
            have hsf' := switch_filter_append
              [(tfidf_key f n, Artifact.fig s.nextFigId [] t)] hsf
            have hpk' := cacheFind_append_of_some
              [(tfidf_key f n, Artifact.fig s.nextFigId [] t)] hpk
            have hfound := cacheFind_append_self hck
              (Artifact.fig s.nextFigId [] t)
            refine ⟨by simpa [cacheStore] using hfound, ?_⟩
            simp [cacheStore, hsf', hpk', hfound]
          next he =>
            rw [Option.some.injEq, Prod.mk.injEq] at h
            obtain ⟨rfl, rfl⟩ := h
            have hsf' := switch_filter_append
              [(tfidf_key f n, Artifact.fig s.nextFigId
                ((texts.toChunks (max 1 (texts.length / 100))).map
                  (String.intercalate " ")) t)] hsf
            have hpk' := cacheFind_append_of_some
              [(tfidf_key f n, Artifact.fig s.nextFigId
                ((texts.toChunks (max 1 (texts.length / 100))).map
                  (String.intercalate " ")) t)] hpk
            have hfound := cacheFind_append_self hck
              (Artifact.fig s.nextFigId
                ((texts.toChunks (max 1 (texts.length / 100))).map
                  (String.intercalate " ")) t)
            refine ⟨by simpa [cacheStore] using hfound, ?_⟩
            simp [cacheStore, hsf', hpk', hfound]

/-- Claim C2, witness: on a concrete constructed analyzer state, the
second identical `plot_word_cloud` and `plot_tfidf` calls return the
artifact computed by the first call and leave the state untouched. -/
theorem C2_artifact_ops_memoized_witness :
    (cacheFind C2_s1.cache (word_cloud_key "best" 3) = some C2_fig ∧
      plot_word_cloud C2_s1 3 "best" "T" = some (C2_fig, C2_s1)) ∧
    (cacheFind C2_s1t.cache (tfidf_key "best" 3) = some C2_fig ∧
      plot_tfidf C2_s1t 3 "best" "T" = some (C2_fig, C2_s1t)) :=
  ⟨(C2_artifact_ops_memoized C2_s0 3 "best" "T" C2_fig C2_s1).1 (by decide),
   (C2_artifact_ops_memoized C2_s0 3 "best" "T" C2_fig C2_s1t).2 (by decide)⟩

/-- Claim C7. The claim says two comparison calls differing in any
result-affecting parameter — including `rating_filter` — use distinct
fingerprints and never return each other's cached artifact. In fact
the comparison cache key omits `rating_filter` entirely: a first call
with the `best` filter computes a figure from the best-reviews tokens
`["apple", "pear"]`; a second call identical except for the `worst`
filter (whose tokens are `["awful"]`) hits the same key
`compare_100_100_T` and returns the best-reviews artifact unchanged. -/
theorem C7_compare_key_ignores_rating_filter :
    compare_frequency_and_tfidf C7_s0 100 100 "best" "T" =
      some (C7_fig, C7_s1) ∧
    compare_frequency_and_tfidf C7_s1 100 100 "worst" "T" =
      some (C7_fig, C7_s1) ∧
    C7_fig = Artifact.fig 0 ["apple", "pear"] "T" ∧
    cacheFind C7_s0.cache worstKey = some (Artifact.tokens ["awful"]) := by
  refine ⟨by decide, by decide, rfl, by decide⟩

/-- Claim C10. For every `rating_filter` outside
`{"best", "worst", "most"}`, `switch_filter` returns the best-reviews
cache key — the same key the `"best"` filter yields — and does not
raise, provided the best-reviews preprocessed entry is in the cache
(which construction guarantees). -/
theorem C10_invalid_filter_defaults_to_best (cache : Cache) (f : String)
    (hb : (cacheFind cache bestKey).isSome = true)
    (h1 : f ≠ "best") (h2 : f ≠ "worst") (h3 : f ≠ "most") :
    switch_filter cache f = some bestKey ∧
    switch_filter cache f = switch_filter cache "best" := by
  have e1 : (f == "best") = false := beq_eq_false_iff_ne.mpr h1
  have e2 : (f == "worst") = false := beq_eq_false_iff_ne.mpr h2
  have e3 : (f == "most") = false := beq_eq_false_iff_ne.mpr h3
  obtain ⟨w, hw⟩ := Option.isSome_iff_exists.mp hb
  simp [switch_filter, filter_cache_key, e1, e2, e3, hw]

/-- Claim C10, witness: the invalid filter string `"invalid_filter"`
on a constructed cache selects the best-reviews key. -/
theorem C10_invalid_filter_defaults_to_best_witness :
    switch_filter C10_cache "invalid_filter" = some bestKey ∧
    switch_filter C10_cache "invalid_filter" =
      switch_filter C10_cache "best" :=
  C10_invalid_filter_defaults_to_best C10_cache "invalid_filter"
    (by decide) (by decide) (by decide) (by decide)

/-- Claim C9. If deserializing the persisted analyzer fails with any
exception, `_load_recipe_analyzer` returns `None`, and the overall
`load_data_from_parquet_and_pickle` still completes, reporting the
loaded tables and proportion series with `data_loaded = True`. -/
theorem C9_analyzer_failure_degrades_gracefully (t : Tables)
    (p : List ℚ × List ℚ) (e : String) :
    load_recipe_analyzer (.error e) = none ∧
    load_data_from_parquet_and_pickle (.ok t) (.ok p) (.error e) =
      ⟨t, p.1, p.2, none, true⟩ :=
  ⟨rfl, rfl⟩

end Mangetamain
